import Mathlib

/-!
Verification development for the lite-txn-sender ingestion core.

Shallow embedding of:
  * `src/core/src/block_processor.rs` — `BlockProcessor::process` and
    `BlockProcessor::poll_latest_block`;
  * `src/lite-rpc/src/main.rs` — `get_identity_keypair` and the supervisor
    restart loop in `main`;
  * `src/cluster-endpoints/src/json_rpc_subscription.rs` —
    `create_json_rpc_polling_subscription` and the bounded broadcast topics
    it allocates.

Machine integers are modelled as `Nat` with explicit `% 2 ^ 32` where the
source performs wrapping 32-bit arithmetic, and explicit reinterpretation
where the source casts `u64` to `i64`.  Fallible operations return `Except`;
a Rust panic (out-of-bounds index, `unwrap`, `expect`) is the error branch.
-/

namespace LiteTxnSender

/-- Confirmation tier of a ledger query (`CommitmentConfig` in the source),
least final first. -/
inductive Commitment where
  | processed
  | confirmed
  | finalized
deriving DecidableEq, Repr

/-- Numeric rank of a tier: `processed` is the lowest (least final). -/
def tierRank : Commitment → Nat
  | .processed => 0
  | .confirmed => 1
  | .finalized => 2

/-- Transaction execution errors are treated as opaque payloads. -/
abbrev TransactionError := String

/-- The compute-budget program's instruction, as deserialized by
`try_from_slice_unchecked::<ComputeBudgetInstruction>` in the source.  Fields
`units` and `additional_fee` of `RequestUnitsDeprecated` are `u32`; the limit
is `u32`; the price is `u64`. -/
inductive ComputeBudgetInstruction where
  | requestUnitsDeprecated (units : Nat) (additional_fee : Nat)
  | setComputeUnitLimit (limit : Nat)
  | setComputeUnitPrice (price : Nat)
  | other
deriving DecidableEq, Repr

/-- One compiled instruction of a decoded transaction.
`programIsComputeBudget` embeds `i.program_id(keys).eq(&compute_budget::id())`;
`decoded` embeds the result of `try_from_slice_unchecked(i.data)` (`none` when
deserialization fails). -/
structure Instruction where
  programIsComputeBudget : Bool
  decoded : Option ComputeBudgetInstruction
deriving DecidableEq, Repr

/-- A decoded (`VersionedTransaction`) payload: its signature list (already
rendered to strings) and its message's compiled instructions. -/
structure VersionedTransaction where
  signatures : List String
  instructions : List Instruction
deriving DecidableEq, Repr

/-- The tri-state `OptionSerializer` from solana-transaction-status. -/
inductive OptionSerializer (α : Type) where
  | some (a : α)
  | none
  | skip
deriving DecidableEq, Repr

/-- The destructured fields of `UiTransactionStatusMeta` used by `process`. -/
structure UiTransactionStatusMeta where
  err : Option TransactionError
  status : Except TransactionError Unit
  compute_units_consumed : OptionSerializer Nat
deriving Repr

/-- One entry of the block's transaction list
(`EncodedTransactionWithStatusMeta`): its optional execution metadata and the
result of `tx.transaction.decode()` (`none` when decoding fails). -/
structure EncodedTransactionWithStatusMeta where
  meta : Option UiTransactionStatusMeta
  transaction : Option VersionedTransaction
deriving Repr

/-- Reward types appearing in a block's reward list. -/
inductive RewardType where
  | fee
  | rent
  | staking
  | voting
deriving DecidableEq, Repr

/-- One entry of the block's reward list. -/
structure Reward where
  pubkey : String
  reward_type : Option RewardType
deriving DecidableEq, Repr

/-- The upstream fetch response (`UiConfirmedBlock`): the fields `process`
reads.  `block_height`, `transactions` and `rewards` are optional in the wire
format. -/
structure Block where
  block_height : Option Nat
  transactions : Option (List EncodedTransactionWithStatusMeta)
  blockhash : String
  parent_slot : Nat
  rewards : Option (List Reward)
deriving Repr

/-- Per-transaction facts extracted by `process` (`TransactionInfo`). -/
structure TransactionInfo where
  signature : String
  err : Option TransactionError
  status : Except TransactionError Unit
  cu_requested : Option Int
  prioritization_fees : Option Int
  cu_consumed : Option Int
deriving Repr

/-- The result of `BlockProcessor::process`. -/
structure BlockProcessorResult where
  invalid_block : Bool
  transaction_infos : List TransactionInfo
  leader_id : Option String
  blockhash : String
  parent_slot : Nat
deriving Repr

/-- The sentinel `BlockProcessorResult::invalid()` for skipped or empty
ledger slots. -/
def BlockProcessorResult.invalid : BlockProcessorResult :=
  { invalid_block := true
    transaction_infos := []
    leader_id := none
    blockhash := ""
    parent_slot := 0 }

/-- Cached per-block facts (`BlockInformation` in `block_store.rs`); the
arrival instant is modelled as an abstract tick. -/
structure BlockInformation where
  slot : Nat
  block_height : Nat
  instant : Nat
  processed_local_time : Option Nat
deriving DecidableEq, Repr

/-- Modelled from the spec: the `BlockStore` state (src/core/src/block_store.rs
is not among the provided sources).  Per §3/§4.1 it holds one latest pointer
per durability tier plus a block-identifier → information index. -/
structure BlockStore where
  latest_processed : Option (String × BlockInformation)
  latest_confirmed : Option (String × BlockInformation)
  latest_finalized : Option (String × BlockInformation)
  by_hash : List (String × BlockInformation)
deriving DecidableEq, Repr

/-- Modelled from the spec: `BlockStore::add_block` "upserts the tier's latest
pointer and the block_id→info index entry" (§4.1); its body is not among the
provided sources. -/
def BlockStore.add_block (bs : BlockStore) (blockhash : String)
    (info : BlockInformation) (c : Commitment) : BlockStore :=
  let bs := { bs with by_hash := (blockhash, info) :: bs.by_hash }
  match c with
  | .processed => { bs with latest_processed := some (blockhash, info) }
  | .confirmed => { bs with latest_confirmed := some (blockhash, info) }
  | .finalized => { bs with latest_finalized := some (blockhash, info) }

/-- Errors of the embedded `process`: a hard upstream fetch failure propagated
by `?`, or the panic of the unchecked index `tx.signatures[0]`. -/
inductive ProcessError where
  | fetchFailed (e : String)
  | signatureIndexOutOfBounds
deriving DecidableEq, Repr

/-- Reinterpret a `u64` value as `i64` (`x as i64` in the source). -/
def u64_as_i64 (x : Nat) : Int :=
  if x < 2 ^ 63 then Int.ofNat x else Int.ofNat x - 2 ^ 64

/-- The first legacy `RequestUnitsDeprecated` compute-budget instruction of a
transaction (`find_map` at block_processor.rs:130-143). -/
def findLegacyComputeBudget (tx : VersionedTransaction) : Option (Nat × Nat) :=
  tx.instructions.findSome? fun i =>
    if i.programIsComputeBudget then
      match i.decoded with
      | Option.some (ComputeBudgetInstruction.requestUnitsDeprecated units additional_fee) =>
          some (units, additional_fee)
      | _ => none
    else none

/-- The first `SetComputeUnitLimit` instruction, widened `u32 → i64`
(block_processor.rs:145-156). -/
def findComputeUnitLimit (tx : VersionedTransaction) : Option Int :=
  tx.instructions.findSome? fun i =>
    if i.programIsComputeBudget then
      match i.decoded with
      | Option.some (ComputeBudgetInstruction.setComputeUnitLimit limit) =>
          some (Int.ofNat limit)
      | _ => none
    else none

/-- The first `SetComputeUnitPrice` instruction, reinterpreted `u64 → i64`
(block_processor.rs:158-169). -/
def findComputeUnitPrice (tx : VersionedTransaction) : Option Int :=
  tx.instructions.findSome? fun i =>
    if i.programIsComputeBudget then
      match i.decoded with
      | Option.some (ComputeBudgetInstruction.setComputeUnitPrice price) =>
          some (u64_as_i64 price)
      | _ => none
    else none

/-- The legacy override (block_processor.rs:171-176): when a legacy
instruction was found, requested units become the legacy units, and when
`additional_fee > 0` the prioritization fee becomes
`(units * 1000) / additional_fee` computed in wrapping `u32` arithmetic
before the widening `.into()` to `i64`. -/
def applyLegacyOverride (legacy : Option (Nat × Nat))
    (cu_requested prioritization_fees : Option Int) : Option Int × Option Int :=
  match legacy with
  | none => (cu_requested, prioritization_fees)
  | some (units, additional_fee) =>
      ( some (Int.ofNat units),
        if 0 < additional_fee then
          some (Int.ofNat ((units * 1000) % 2 ^ 32 / additional_fee))
        else prioritization_fees )

/-- The consumed-units field of the metadata, reinterpreted `u64 → i64`
(block_processor.rs:125-128). -/
def cuConsumedOf (m : UiTransactionStatusMeta) : Option Int :=
  match m.compute_units_consumed with
  | .some cu => some (u64_as_i64 cu)
  | _ => none

/-- The `TransactionInfo` built for a transaction whose metadata is present,
whose payload decoded, and whose first signature is `sig0`
(block_processor.rs:124-185). -/
def mkTransactionInfo (m : UiTransactionStatusMeta) (tx : VersionedTransaction)
    (sig0 : String) : TransactionInfo :=
  let pair := applyLegacyOverride (findLegacyComputeBudget tx)
    (findComputeUnitLimit tx) (findComputeUnitPrice tx)
  { signature := sig0
    err := m.err
    status := m.status
    cu_requested := pair.1
    prioritization_fees := pair.2
    cu_consumed := cuConsumedOf m }

/-- One iteration of the transaction loop (block_processor.rs:111-186):
`none` when the transaction is skipped (no metadata, or decode failure); the
error branch is the panic of the unchecked index `tx.signatures[0]`. -/
def processTx (tx : EncodedTransactionWithStatusMeta) :
    Except ProcessError (Option TransactionInfo) :=
  match tx.meta with
  | none => .ok none
  | some m =>
    match tx.transaction with
    | none => .ok none
    | some dtx =>
      match dtx.signatures with
      | [] => .error .signatureIndexOutOfBounds
      | sig0 :: _ => .ok (some (mkTransactionInfo m dtx sig0))

/-- The whole transaction loop: skipped transactions contribute nothing, a
panic aborts the remainder. -/
def processTxs : List EncodedTransactionWithStatusMeta →
    Except ProcessError (List TransactionInfo)
  | [] => .ok []
  | tx :: rest =>
    match processTx tx with
    | .error e => .error e
    | .ok none => processTxs rest
    | .ok (some info) =>
      match processTxs rest with
      | .error e => .error e
      | .ok infos => .ok (info :: infos)

/-- Fee-reward test `reward.reward_type == Some(RewardType::Fee)`
(block_processor.rs:191). -/
def isFeeReward (r : Reward) : Bool :=
  decide (r.reward_type = some RewardType.fee)

/-- Leader extraction (block_processor.rs:188-195): the recipient of the
first fee-type reward, when a reward list is present. -/
def leaderIdOf (rewards : Option (List Reward)) : Option String :=
  match rewards with
  | some rs => (rs.find? isFeeReward).map (fun r => r.pubkey)
  | none => none

/-- The embedding of `BlockProcessor::process` (block_processor.rs:64-204).  The upstream RPC
response is passed in as `fetched`; the optional store is threaded explicitly
and returned alongside the result; `now` stands for `Instant::now()`. -/
def process (fetched : Except String Block) (store : Option BlockStore)
    (slot : Nat) (commitment : Commitment) (now : Nat) :
    Except ProcessError (BlockProcessorResult × Option BlockStore) :=
  match fetched with
  | .error e => .error (.fetchFailed e)
  | .ok block =>
    match block.block_height with
    | none => .ok (BlockProcessorResult.invalid, store)
    | some block_height =>
      match block.transactions with
      | none => .ok (BlockProcessorResult.invalid, store)
      | some transactions =>
        let blockhash := block.blockhash
        let parent_slot := block.parent_slot
        let store := store.map fun bs =>
          bs.add_block blockhash
            { slot := slot, block_height := block_height,
              instant := now, processed_local_time := none }
            commitment
        match processTxs transactions with
        | .error e => .error e
        | .ok transaction_infos =>
          .ok ({ invalid_block := false
                 transaction_infos := transaction_infos
                 leader_id := leaderIdOf block.rewards
                 blockhash := blockhash
                 parent_slot := parent_slot }, store)

/-- The embedding of `BlockProcessor::poll_latest_block`
(block_processor.rs:206-222).  The
result of `BlockStore::poll_latest` (an upstream bootstrap query whose body is
not among the provided sources) is passed in as `pollResult`; the write, when
a store is configured, is at `CommitmentConfig::processed()`. -/
def poll_latest_block (pollResult : Except String (String × BlockInformation))
    (store : Option BlockStore) (commitment : Commitment) :
    Except String (Option BlockStore) :=
  match pollResult with
  | .error e => .error e
  | .ok (processed_blockhash, processed_block) =>
    .ok (store.map fun bs =>
      bs.add_block processed_blockhash processed_block Commitment.processed)

/-! ## Identity-key resolution (`get_identity_keypair`, main.rs:11-32) -/

/-- A process keypair: either reconstructed from key bytes or freshly
generated (`Keypair::new()`). -/
inductive Keypair where
  | ofBytes (bytes : List Nat)
  | ephemeral
deriving DecidableEq, Repr

/-- The ambient inputs of `get_identity_keypair`: the `IDENTITY` environment
variable, JSON byte-array parsing (`serde_json::from_str::<Vec<u8>>`), file
reading (`tokio::fs::read_to_string`, `none` on failure), and whether
`Keypair::from_bytes` accepts a byte vector. -/
structure IdentityEnv where
  identityEnvVar : Option String
  parseBytes : String → Option (List Nat)
  readFile : String → Option String
  fromBytesOk : List Nat → Bool

/-- The call `Keypair::from_bytes(..).unwrap()`: the `unwrap` panic is the
error branch. -/
def keypair_from_bytes (env : IdentityEnv) (bytes : List Nat) :
    Except String Keypair :=
  if env.fromBytesOk bytes then .ok (.ofBytes bytes) else .error "from_bytes failed"

/-- Read a keypair file and parse it (main.rs:17-21 and 26-30; the two sites
are verbatim identical in the source).  `expect`/`unwrap` panics are error
branches. -/
def loadKeypairFile (env : IdentityEnv) (path : String) : Except String Keypair :=
  match env.readFile path with
  | none => .error "Cannot find the identity file provided"
  | some contents =>
    match env.parseBytes contents with
    | none => .error "identity file is not a json byte array"
    | some bytes => keypair_from_bytes env bytes

/-- The embedding of `get_identity_keypair` (main.rs:11-32): if `IDENTITY` is set, try it as
inline JSON key bytes, else treat it as a file path; otherwise an empty CLI
path yields a fresh keypair and a non-empty one is read as a file. -/
def get_identity_keypair (env : IdentityEnv) (identity_from_cli : String) :
    Except String Keypair :=
  match env.identityEnvVar with
  | some identity_env_var =>
    match env.parseBytes identity_env_var with
    | some identity_bytes => keypair_from_bytes env identity_bytes
    | none => loadKeypairFile env identity_env_var
  | none =>
    if identity_from_cli = "" then .ok Keypair.ephemeral
    else loadKeypairFile env identity_from_cli

/-- Modelled from the spec's words (§4.4, §9): the ordered resolver chain —
(1) inline key material from the environment variable, (2) a file path from
the environment variable, (3) a file path from configuration, (4) an
ephemeral key.  A stage is `none` when it is not applicable. -/
def identityStages (env : IdentityEnv) (identity_from_cli : String) :
    List (Option (Except String Keypair)) :=
  [ (env.identityEnvVar.bind fun v =>
      (env.parseBytes v).map fun bytes => keypair_from_bytes env bytes),
    (env.identityEnvVar.map fun v => loadKeypairFile env v),
    (if identity_from_cli = "" then none
     else some (loadKeypairFile env identity_from_cli)),
    some (.ok Keypair.ephemeral) ]

/-- The first applicable stage of the chain wins. -/
def firstApplicableStage (env : IdentityEnv) (identity_from_cli : String) :
    Option (Except String Keypair) :=
  (identityStages env identity_from_cli).findSome? id

/-! ## Supervisor restart loop (`main`, main.rs:70-107) -/

/-- The constant `RESTART_DURATION` (main.rs:94), in seconds. -/
def RESTART_DURATION : Nat := 20

/-- What wakes the supervisor's `select`: the assembled job group completing
early (with success or failure), or the ctrl-c interrupt signal. -/
inductive SupEvent where
  | servicesExit (success : Bool) (msg : String)
  | ctrlC
deriving DecidableEq, Repr

/-- Observable trace of one supervisor run: the restart counter (`RESTARTS`),
how many times the whole job group was built from scratch, the cooldowns
waited (in seconds, in order), and whether the run ended in a clean
shutdown. -/
structure SupervisorRun where
  restarts : Nat
  groupsBuilt : Nat
  cooldowns : List Nat
  cleanShutdown : Bool
deriving DecidableEq, Repr

/-- The supervisor loop (main.rs:70-107) driven by a finite event list.  Each
consumed event corresponds to one iteration that first rebuilt the whole job
group (identity, bridge, services); a `servicesExit` waits the fixed cooldown,
bumps the restart counter and loops; `ctrlC` breaks out cleanly. -/
def supervisorLoop (restarts groupsBuilt : Nat) (cooldowns : List Nat) :
    List SupEvent → SupervisorRun
  | [] =>
    { restarts := restarts, groupsBuilt := groupsBuilt,
      cooldowns := cooldowns, cleanShutdown := false }
  | SupEvent.servicesExit _ _ :: rest =>
    supervisorLoop (restarts + 1) (groupsBuilt + 1)
      (cooldowns ++ [RESTART_DURATION]) rest
  | SupEvent.ctrlC :: _ =>
    { restarts := restarts, groupsBuilt := groupsBuilt + 1,
      cooldowns := cooldowns, cleanShutdown := true }

/-- A supervisor run from process start (counter zero, no group yet). -/
def supervise (events : List SupEvent) : SupervisorRun :=
  supervisorLoop 0 0 [] events

/-! ## Bounded broadcast topics (`create_json_rpc_polling_subscription`,
json_rpc_subscription.rs:13-39).  The topics are `tokio::sync::broadcast`
channels: a publisher never waits, the buffer keeps the newest `capacity`
messages, and a lagging subscriber receives a gap indicator counting the
dropped oldest messages. -/

/-- A bounded multi-consumer topic: its fixed capacity, the retained buffer
(oldest first, never longer than `capacity`), and the total number of
messages ever published. -/
structure BroadcastChannel (α : Type) where
  capacity : Nat
  buffer : List α
  nextSeq : Nat
deriving DecidableEq, Repr

/-- The constructor `broadcast::channel(capacity)`. -/
def BroadcastChannel.new (α : Type) (capacity : Nat) : BroadcastChannel α :=
  { capacity := capacity, buffer := [], nextSeq := 0 }

/-- Publishing: a total function — the publisher never blocks; when the
buffer is full the oldest retained message is dropped. -/
def BroadcastChannel.send (ch : BroadcastChannel α) (a : α) :
    BroadcastChannel α :=
  { ch with
    buffer :=
      if ch.capacity < ch.buffer.length + 1 then
        (ch.buffer ++ [a]).drop (ch.buffer.length + 1 - ch.capacity)
      else ch.buffer ++ [a]
    nextSeq := ch.nextSeq + 1 }

/-- Publish a whole list of messages in order. -/
def BroadcastChannel.sendAll (ch : BroadcastChannel α) :
    List α → BroadcastChannel α
  | [] => ch
  | a :: rest => BroadcastChannel.sendAll (ch.send a) rest

/-- A subscriber's independent read cursor: the sequence number of the next
message it expects. -/
structure Subscriber where
  cursor : Nat
deriving DecidableEq, Repr

/-- What a receive attempt yields: a message, a gap indicator counting the
dropped messages (with the cursor advanced past the gap), or nothing
pending. -/
inductive RecvResult (α : Type) where
  | ok (a : α) (s : Subscriber)
  | lagged (missed : Nat) (s : Subscriber)
  | empty
deriving DecidableEq, Repr

/-- Receiving: a subscriber whose cursor fell behind the oldest retained
message observes `lagged` with the exact number of messages it lost. -/
def BroadcastChannel.recv (ch : BroadcastChannel α) (s : Subscriber) :
    RecvResult α :=
  let oldest := ch.nextSeq - ch.buffer.length
  if s.cursor < oldest then
    .lagged (oldest - s.cursor) { cursor := oldest }
  else
    match ch.buffer.get? (s.cursor - oldest) with
    | some a => .ok a { cursor := s.cursor + 1 }
    | none => .empty

/-- The subscription surface returned by
`create_json_rpc_polling_subscription`: four independent topics. -/
structure EndpointStreaming (Slot ProducedBlock ClusterInfo VoteAccounts : Type) where
  blocks_notifier : BroadcastChannel ProducedBlock
  slot_notifier : BroadcastChannel Slot
  cluster_info_notifier : BroadcastChannel ClusterInfo
  vote_account_notifier : BroadcastChannel VoteAccounts

/-- The embedding of `create_json_rpc_polling_subscription`
(json_rpc_subscription.rs:13-39):
allocates the four broadcast topics, each with capacity 10. -/
def create_json_rpc_polling_subscription
    (Slot ProducedBlock ClusterInfo VoteAccounts : Type) :
    EndpointStreaming Slot ProducedBlock ClusterInfo VoteAccounts :=
  { blocks_notifier := BroadcastChannel.new ProducedBlock 10
    slot_notifier := BroadcastChannel.new Slot 10
    cluster_info_notifier := BroadcastChannel.new ClusterInfo 10
    vote_account_notifier := BroadcastChannel.new VoteAccounts 10 }

/-! ## Helper views and concrete inputs -/

/-- Whether a transaction survives the loop's two skip checks: execution
metadata present and payload decodable. -/
def keptTx (tx : EncodedTransactionWithStatusMeta) : Bool :=
  tx.meta.isSome && tx.transaction.isSome

/-- The pure view of one loop iteration on the non-panicking inputs: `none`
exactly when the transaction is skipped. -/
def txView (tx : EncodedTransactionWithStatusMeta) : Option TransactionInfo :=
  match tx.meta with
  | none => none
  | some m =>
    match tx.transaction with
    | none => none
    | some dtx =>
      match dtx.signatures with
      | [] => none
      | sig0 :: _ => some (mkTransactionInfo m dtx sig0)

/-- Every decodable transaction of the list carries at least one signature
(the precondition under which `tx.signatures[0]` cannot panic). -/
def sigsOk (txs : List EncodedTransactionWithStatusMeta) : Bool :=
  txs.all fun tx =>
    match tx.transaction with
    | some dtx => !dtx.signatures.isEmpty
    | none => true

/-- The first signature of a transaction's decoded payload. -/
def firstSignatureOf (tx : EncodedTransactionWithStatusMeta) : String :=
  match tx.transaction with
  | some dtx => dtx.signatures.headD ""
  | none => ""

/-- Concrete transaction whose legacy instruction has `units = 5000000`,
`additional_fee = 10`, next to a current-encoding `SetComputeUnitPrice 42`. -/
def legacyOverflowTx : EncodedTransactionWithStatusMeta :=
  { meta := some { err := none, status := .ok (), compute_units_consumed := .skip }
    transaction := some
      { signatures := ["sigX"]
        instructions :=
          [ { programIsComputeBudget := true
              decoded := some (.setComputeUnitPrice 42) },
            { programIsComputeBudget := true
              decoded := some (.requestUnitsDeprecated 5000000 10) } ] } }

/-- Concrete valid block holding `legacyOverflowTx`. -/
def legacyOverflowBlock : Block :=
  { block_height := some 100
    transactions := some [legacyOverflowTx]
    blockhash := "hashX"
    parent_slot := 41
    rewards := none }

/-- Concrete transaction with legacy `units = 5000`, `additional_fee = 10`,
next to a current-encoding `SetComputeUnitPrice 42`. -/
def legacyWitnessTx : EncodedTransactionWithStatusMeta :=
  { meta := some { err := none, status := .ok (), compute_units_consumed := .some 7 }
    transaction := some
      { signatures := ["sigW"]
        instructions :=
          [ { programIsComputeBudget := true
              decoded := some (.setComputeUnitPrice 42) },
            { programIsComputeBudget := true
              decoded := some (.requestUnitsDeprecated 5000 10) } ] } }

/-- Concrete valid block holding `legacyWitnessTx`. -/
def legacyWitnessBlock : Block :=
  { block_height := some 9
    transactions := some [legacyWitnessTx]
    blockhash := "hashW"
    parent_slot := 3
    rewards := none }

/-- Concrete fetch response lacking a block height. -/
def headlessBlock : Block :=
  { block_height := none
    transactions := some []
    blockhash := "hx"
    parent_slot := 5
    rewards := none }

/-- Concrete transaction that decodes to an empty signature list. -/
def emptySigTx : EncodedTransactionWithStatusMeta :=
  { meta := some { err := none, status := .ok (), compute_units_consumed := .skip }
    transaction := some { signatures := [], instructions := [] } }

/-- Concrete valid block holding `emptySigTx`. -/
def emptySigBlock : Block :=
  { block_height := some 1
    transactions := some [emptySigTx]
    blockhash := "h0"
    parent_slot := 0
    rewards := none }

/-- Concrete valid block with no transactions and one fee reward for "P". -/
def feeRewardBlock : Block :=
  { block_height := some 77
    transactions := some []
    blockhash := "hR"
    parent_slot := 76
    rewards := some [ { pubkey := "Q", reward_type := some RewardType.rent },
                      { pubkey := "P", reward_type := some RewardType.fee } ] }

/-- Concrete valid block with one well-signed transaction (no compute-budget
instructions at all). -/
def plainBlock : Block :=
  { block_height := some 2
    transactions := some
      [ { meta := some { err := none, status := .ok (), compute_units_consumed := .some 3 }
          transaction := some { signatures := ["sigP"], instructions := [] } },
        { meta := none, transaction := none } ]
    blockhash := "hP"
    parent_slot := 1
    rewards := none }

/-! ## Shared lemmas -/

lemma find_eq_filter_head (p : α → Bool) (l : List α) :
    l.find? p = (l.filter p).head? := by
  induction l with
  | nil => rfl
  | cons a rest ih =>
    by_cases h : p a
    · simp [List.find?_cons, List.filter_cons, h]
    · simp only [List.find?_cons, List.filter_cons, h]
      simp only [Bool.false_eq_true, if_false, ih]

lemma processTx_eq_ok (tx : EncodedTransactionWithStatusMeta)
    (h : (match tx.transaction with
          | some dtx => !dtx.signatures.isEmpty
          | none => true) = true) :
    processTx tx = .ok (txView tx) := by
  cases hm : tx.meta with
  | none => simp [processTx, txView, hm]
  | some m =>
    cases ht : tx.transaction with
    | none => simp [processTx, txView, hm, ht]
    | some dtx =>
      rw [ht] at h
      cases hs : dtx.signatures with
      | nil => simp [hs] at h
      | cons sig0 rest => simp [processTx, txView, hm, ht, hs]

lemma processTxs_eq_of_sigsOk (txs : List EncodedTransactionWithStatusMeta)
    (h : sigsOk txs = true) :
    processTxs txs = .ok (txs.filterMap txView) := by
  induction txs with
  | nil => rfl
  | cons tx rest ih =>
    rw [sigsOk, List.all_cons, Bool.and_eq_true] at h
    have hrest := ih h.2
    rw [processTxs, processTx_eq_ok tx h.1, hrest]
    cases hv : txView tx <;> simp [List.filterMap_cons, hv]

lemma infos_signature_map (txs : List EncodedTransactionWithStatusMeta)
    (h : sigsOk txs = true) :
    (txs.filterMap txView).map (fun i => i.signature)
      = (txs.filter keptTx).map firstSignatureOf := by
  induction txs with
  | nil => rfl
  | cons tx rest ih =>
    rw [sigsOk, List.all_cons, Bool.and_eq_true] at h
    have hrest := ih h.2
    cases hm : tx.meta with
    | none => simp [List.filterMap_cons, List.filter_cons, txView, keptTx, hm, hrest]
    | some m =>
      cases ht : tx.transaction with
      | none => simp [List.filterMap_cons, List.filter_cons, txView, keptTx, hm, ht, hrest]
      | some dtx =>
        have h1 := h.1
        rw [ht] at h1
        cases hs : dtx.signatures with
        | nil => simp [hs] at h1
        | cons sig0 tl =>
          simp [List.filterMap_cons, List.filter_cons, txView, keptTx,
            firstSignatureOf, mkTransactionInfo, hm, ht, hs, hrest]

lemma process_valid_eq (store : Option BlockStore) (slot : Nat)
    (c : Commitment) (now : Nat) (block : Block) (bh : Nat)
    (txs : List EncodedTransactionWithStatusMeta)
    (hbh : block.block_height = some bh)
    (htx : block.transactions = some txs)
    (hs : sigsOk txs = true) :
    process (.ok block) store slot c now =
      .ok ({ invalid_block := false
             transaction_infos := txs.filterMap txView
             leader_id := leaderIdOf block.rewards
             blockhash := block.blockhash
             parent_slot := block.parent_slot },
           store.map fun bs =>
             bs.add_block block.blockhash
               { slot := slot, block_height := bh,
                 instant := now, processed_local_time := none } c) := by
  simp only [process, hbh, htx, processTxs_eq_of_sigsOk txs hs]

lemma supervisorLoop_exits (exits : List SupEvent)
    (h : ∀ e ∈ exits, e ≠ SupEvent.ctrlC) (r g : Nat) (cs : List Nat) :
    supervisorLoop r g cs (exits ++ [SupEvent.ctrlC])
      = { restarts := r + exits.length
          groupsBuilt := g + exits.length + 1
          cooldowns := cs ++ List.replicate exits.length RESTART_DURATION
          cleanShutdown := true } := by
  induction exits generalizing r g cs with
  | nil => simp [supervisorLoop]
  | cons e rest ih =>
    cases e with
    | servicesExit s m =>
      have hr : ∀ x ∈ rest, x ≠ SupEvent.ctrlC :=
        fun x hx => h x (List.mem_cons_of_mem _ hx)
      rw [List.cons_append, supervisorLoop, ih hr]
      simp only [SupervisorRun.mk.injEq, List.length_cons,
        List.replicate_succ, List.append_assoc, List.singleton_append,
        and_true]
      exact ⟨by omega, by omega⟩
    | ctrlC => exact absurd rfl (h _ (List.mem_cons_self _ _))

lemma sendAll_nextSeq {α : Type} (msgs : List α) (ch : BroadcastChannel α) :
    (ch.sendAll msgs).nextSeq = ch.nextSeq + msgs.length := by
  induction msgs generalizing ch with
  | nil => simp [BroadcastChannel.sendAll]
  | cons a rest ih =>
    rw [BroadcastChannel.sendAll, ih]
    simp [BroadcastChannel.send]
    omega

lemma sendAll_capacity {α : Type} (msgs : List α) (ch : BroadcastChannel α) :
    (ch.sendAll msgs).capacity = ch.capacity := by
  induction msgs generalizing ch with
  | nil => rfl
  | cons a rest ih =>
    rw [BroadcastChannel.sendAll, ih]
    rfl

lemma send_buffer_length {α : Type} (ch : BroadcastChannel α) (a : α) :
    (ch.send a).buffer.length
      = min ch.capacity (ch.buffer.length + 1) := by
  by_cases hc : ch.capacity < ch.buffer.length + 1
  · simp [BroadcastChannel.send, hc]
    omega
  · simp [BroadcastChannel.send, hc]
    omega

lemma sendAll_buffer_length {α : Type} (msgs : List α)
    (ch : BroadcastChannel α) (h : ch.buffer.length ≤ ch.capacity) :
    (ch.sendAll msgs).buffer.length
      = min ch.capacity (ch.buffer.length + msgs.length) := by
  induction msgs generalizing ch with
  | nil =>
    simp only [BroadcastChannel.sendAll, List.length_nil, Nat.add_zero]
    omega
  | cons a rest ih =>
    rw [BroadcastChannel.sendAll]
    have hsend := send_buffer_length ch a
    have hcap : (ch.send a).capacity = ch.capacity := rfl
    have hle : (ch.send a).buffer.length ≤ (ch.send a).capacity := by
      rw [hsend, hcap]; omega
    rw [ih (ch.send a) hle, hsend, hcap]
    simp only [List.length_cons]
    omega

/-! ## Claim theorems -/

/-- C1, counterexample: the claim "prioritization fee =
floor(legacy_units × 1000 / additional_fee)" fails at units = 5000000,
additional_fee = 10: the `u32` product wraps and `process` derives fee
70503270 instead of the exact 500000000. -/
theorem legacy_fee_exact_floor_cex :
    (process (.ok legacyOverflowBlock) none 42 Commitment.confirmed 0).map
        (fun p => p.1.transaction_infos.map (fun i => i.prioritization_fees))
      = .ok [some 70503270]
  ∧ (5000000 * 1000 / 10 : Int) = 500000000
  ∧ (70503270 : Int) ≠ 500000000 := by
  refine ⟨rfl, by decide, by decide⟩

/-- C1 (amended): for every transaction of a valid block whose legacy
"request units deprecated" instruction carries `(units, additional_fee)`,
`process` emits an entry with requested units = the legacy units and — when
additional_fee > 0 — prioritization fee =
floor((units × 1000 mod 2^32) / additional_fee), regardless of any
current-encoding SetComputeUnitLimit / SetComputeUnitPrice instructions also
present (legacy wins; exact floor(units × 1000 / additional_fee) whenever
units ≤ 4294967). -/
theorem legacy_override_governs (store : Option BlockStore) (slot : Nat)
    (c : Commitment) (now : Nat) (block : Block) (bh : Nat)
    (txs : List EncodedTransactionWithStatusMeta)
    (tx : EncodedTransactionWithStatusMeta) (m : UiTransactionStatusMeta)
    (dtx : VersionedTransaction) (sig0 : String) (sigRest : List String)
    (u f : Nat)
    (hbh : block.block_height = some bh)
    (htx : block.transactions = some txs)
    (hs : sigsOk txs = true)
    (hmem : tx ∈ txs)
    (hm : tx.meta = some m)
    (hd : tx.transaction = some dtx)
    (hsig : dtx.signatures = sig0 :: sigRest)
    (hleg : findLegacyComputeBudget dtx = some (u, f)) :
    ∃ res store2, process (.ok block) store slot c now = .ok (res, store2) ∧
      ∃ info ∈ res.transaction_infos,
        info.signature = sig0 ∧
        info.cu_requested = some (Int.ofNat u) ∧
        (0 < f → info.prioritization_fees
            = some (Int.ofNat ((u * 1000) % 2 ^ 32 / f))) := by
  refine ⟨_, _, process_valid_eq store slot c now block bh txs hbh htx hs, ?_⟩
  refine ⟨mkTransactionInfo m dtx sig0, ?_, rfl, ?_, ?_⟩
  · exact List.mem_filterMap.mpr ⟨tx, hmem, by simp [txView, hm, hd, hsig]⟩
  · simp [mkTransactionInfo, applyLegacyOverride, hleg]
  · intro hf
    simp [mkTransactionInfo, applyLegacyOverride, hleg, hf]

/-- C1 witness: at units = 5000, additional_fee = 10 (with a current-encoding
price instruction also present), the derived fee is 500000. -/
theorem legacy_override_governs_witness :
    (∃ res store2,
        process (.ok legacyWitnessBlock) none 4 Commitment.confirmed 0
          = .ok (res, store2) ∧
        ∃ info ∈ res.transaction_infos,
          info.signature = "sigW" ∧
          info.cu_requested = some (Int.ofNat 5000) ∧
          (0 < 10 → info.prioritization_fees
              = some (Int.ofNat ((5000 * 1000) % 2 ^ 32 / 10))))
  ∧ Int.ofNat ((5000 * 1000) % 2 ^ 32 / 10) = 500000 :=
  ⟨legacy_override_governs none 4 Commitment.confirmed 0 legacyWitnessBlock 9
      [legacyWitnessTx] legacyWitnessTx
      { err := none, status := .ok (), compute_units_consumed := .some 7 }
      { signatures := ["sigW"]
        instructions :=
          [ { programIsComputeBudget := true
              decoded := some (.setComputeUnitPrice 42) },
            { programIsComputeBudget := true
              decoded := some (.requestUnitsDeprecated 5000 10) } ] }
      "sigW" [] 5000 10 rfl rfl rfl (List.mem_singleton.mpr rfl) rfl rfl rfl rfl,
    by decide⟩

/-- C2: driven by any finite sequence of early group completions (success or
failure alike) followed by a ctrl-c, the supervisor waits the fixed 20-second
cooldown and increments the restart counter exactly once per completion,
rebuilds the whole job group from scratch each iteration, and on ctrl-c shuts
down cleanly without restarting. -/
theorem supervisor_restart_policy (exits : List SupEvent)
    (h : ∀ e ∈ exits, e ≠ SupEvent.ctrlC) :
    (supervise (exits ++ [SupEvent.ctrlC])).restarts = exits.length
  ∧ (supervise (exits ++ [SupEvent.ctrlC])).cooldowns
      = List.replicate exits.length RESTART_DURATION
  ∧ RESTART_DURATION = 20
  ∧ (supervise (exits ++ [SupEvent.ctrlC])).groupsBuilt = exits.length + 1
  ∧ (supervise (exits ++ [SupEvent.ctrlC])).cleanShutdown = true := by
  rw [supervise, supervisorLoop_exits exits h 0 0 []]
  simp [RESTART_DURATION]

/-- C2 witness: one successful and one failed early completion followed by
ctrl-c give two restarts with 20-second cooldowns and a clean shutdown. -/
theorem supervisor_restart_policy_witness :
    (supervise ([SupEvent.servicesExit true "done",
                 SupEvent.servicesExit false "boom"] ++ [SupEvent.ctrlC])).restarts = 2
  ∧ (supervise ([SupEvent.servicesExit true "done",
                 SupEvent.servicesExit false "boom"] ++ [SupEvent.ctrlC])).cooldowns = [20, 20]
  ∧ (supervise ([SupEvent.servicesExit true "done",
                 SupEvent.servicesExit false "boom"] ++ [SupEvent.ctrlC])).cleanShutdown = true := by
  have h := supervisor_restart_policy
    [SupEvent.servicesExit true "done", SupEvent.servicesExit false "boom"]
    (by decide)
  refine ⟨h.1, ?_, h.2.2.2.2⟩
  rw [h.2.1]
  decide

/-- C3: a fetch response lacking a block height or lacking a transaction list
makes `process` return `Ok` with the `invalid_block` sentinel (invalid flag
set, empty transaction list, no leader, empty block-identifier,
parent_slot = 0), never an error; a hard fetch failure is propagated as an
error instead. -/
theorem process_invalid_sentinel :
    (∀ (store : Option BlockStore) (slot : Nat) (c : Commitment) (now : Nat)
        (e : String),
        process (.error e) store slot c now = .error (.fetchFailed e))
  ∧ (∀ (store : Option BlockStore) (slot : Nat) (c : Commitment) (now : Nat)
        (block : Block), block.block_height = none →
        process (.ok block) store slot c now
          = .ok (BlockProcessorResult.invalid, store))
  ∧ (∀ (store : Option BlockStore) (slot : Nat) (c : Commitment) (now : Nat)
        (block : Block), block.transactions = none →
        process (.ok block) store slot c now
          = .ok (BlockProcessorResult.invalid, store))
  ∧ BlockProcessorResult.invalid.invalid_block = true
  ∧ BlockProcessorResult.invalid.transaction_infos = []
  ∧ BlockProcessorResult.invalid.leader_id = none
  ∧ BlockProcessorResult.invalid.blockhash = ""
  ∧ BlockProcessorResult.invalid.parent_slot = 0 := by
  refine ⟨fun store slot c now e => rfl,
    fun store slot c now block h => by simp [process, h],
    fun store slot c now block h => ?_, rfl, rfl, rfl, rfl, rfl⟩
  cases hbh : block.block_height <;> simp [process, h, hbh]

/-- C3 witness: a concrete response without a block height yields the
sentinel. -/
theorem process_invalid_sentinel_witness :
    process (.ok headlessBlock) none 1 Commitment.processed 0
      = .ok (BlockProcessorResult.invalid, none) :=
  process_invalid_sentinel.2.1 none 1 Commitment.processed 0 headlessBlock rfl

/-- C4: for a valid block, `process` returns Ok with exactly one
TransactionInfo per transaction having both execution metadata and a
decodable payload, each carrying that transaction's first signature;
transactions missing either are skipped without aborting the block and
produce no error. -/
theorem process_one_info_per_decodable (store : Option BlockStore)
    (slot : Nat) (c : Commitment) (now : Nat) (block : Block) (bh : Nat)
    (txs : List EncodedTransactionWithStatusMeta)
    (hbh : block.block_height = some bh)
    (htx : block.transactions = some txs)
    (hs : sigsOk txs = true) :
    ∃ res store2, process (.ok block) store slot c now = .ok (res, store2) ∧
      res.invalid_block = false ∧
      res.transaction_infos.length = (txs.filter keptTx).length ∧
      res.transaction_infos.map (fun i => i.signature)
        = (txs.filter keptTx).map firstSignatureOf := by
  refine ⟨_, _, process_valid_eq store slot c now block bh txs hbh htx hs,
    rfl, ?_, infos_signature_map txs hs⟩
  have hmap := congrArg List.length (infos_signature_map txs hs)
  simpa using hmap

/-- C4 witness: a block with one well-formed transaction and one lacking both
metadata and payload yields exactly one info, with the first signature. -/
theorem process_one_info_per_decodable_witness :
    ∃ res store2,
      process (.ok plainBlock) none 3 Commitment.finalized 0 = .ok (res, store2) ∧
      res.invalid_block = false ∧
      res.transaction_infos.length
        = ((plainBlock.transactions.getD []).filter keptTx).length ∧
      res.transaction_infos.map (fun i => i.signature)
        = ((plainBlock.transactions.getD []).filter keptTx).map firstSignatureOf :=
  process_one_info_per_decodable none 3 Commitment.finalized 0 plainBlock 2
    (plainBlock.transactions.getD []) rfl rfl rfl

/-- C5: identity-key resolution equals the first applicable stage of the
ordered chain — inline key material from the environment variable, a file
path from the environment variable, a file path from configuration, else an
ephemeral key — for every combination of inputs. -/
theorem identity_resolution_chain (env : IdentityEnv)
    (identity_from_cli : String) :
    firstApplicableStage env identity_from_cli
      = some (get_identity_keypair env identity_from_cli) := by
  cases henv : env.identityEnvVar with
  | some v =>
    cases hp : env.parseBytes v with
    | some bytes =>
      simp [firstApplicableStage, identityStages, get_identity_keypair,
        List.findSome?_cons, henv, hp]
    | none =>
      simp [firstApplicableStage, identityStages, get_identity_keypair,
        List.findSome?_cons, henv, hp]
  | none =>
    by_cases hcli : identity_from_cli = "" <;>
      simp [firstApplicableStage, identityStages, get_identity_keypair,
        List.findSome?_cons, henv, hcli]

/-- C6: the fan-out is exactly four independent bounded topics, each created
with backlog capacity 10; publishing never blocks (every send is accepted,
bumping the sequence number), and a subscriber that did not drain an
over-capacity burst observes a `lagged` gap indicator counting exactly the
lost oldest messages. -/
theorem fanout_four_bounded_topics :
    (∀ (S P C V : Type),
        (create_json_rpc_polling_subscription S P C V).slot_notifier
            = BroadcastChannel.new S 10
      ∧ (create_json_rpc_polling_subscription S P C V).blocks_notifier
            = BroadcastChannel.new P 10
      ∧ (create_json_rpc_polling_subscription S P C V).cluster_info_notifier
            = BroadcastChannel.new C 10
      ∧ (create_json_rpc_polling_subscription S P C V).vote_account_notifier
            = BroadcastChannel.new V 10)
  ∧ (∀ (ch : BroadcastChannel Nat) (a : Nat),
        (ch.send a).nextSeq = ch.nextSeq + 1)
  ∧ (∀ (msgs : List Nat), 10 < msgs.length →
        (((create_json_rpc_polling_subscription Nat Nat Nat Nat).slot_notifier).sendAll
            msgs).nextSeq = msgs.length
      ∧ (((create_json_rpc_polling_subscription Nat Nat Nat Nat).slot_notifier).sendAll
            msgs).recv { cursor := 0 }
          = RecvResult.lagged (msgs.length - 10) { cursor := msgs.length - 10 }) := by
  refine ⟨fun S P C V => ⟨rfl, rfl, rfl, rfl⟩, fun ch a => rfl, fun msgs hlen => ?_⟩
  have hns : ((BroadcastChannel.new Nat 10).sendAll msgs).nextSeq = msgs.length := by
    rw [sendAll_nextSeq]
    simp [BroadcastChannel.new]
  have hbl10 : ((BroadcastChannel.new Nat 10).sendAll msgs).buffer.length = 10 := by
    rw [sendAll_buffer_length msgs (BroadcastChannel.new Nat 10) (by simp [BroadcastChannel.new])]
    show min 10 ([].length + msgs.length) = 10
    simp
    omega
  have hcur : ({ cursor := 0 } : Subscriber).cursor = 0 := rfl
  have hrecv : ((BroadcastChannel.new Nat 10).sendAll msgs).recv { cursor := 0 }
      = RecvResult.lagged (msgs.length - 10) { cursor := msgs.length - 10 } := by
    simp only [BroadcastChannel.recv, hns, hbl10, hcur]
    rw [if_pos (by omega)]
    simp
  exact ⟨hns, hrecv⟩

/-- C6 witness: eleven undrained messages on a capacity-10 topic produce a
gap indicator for exactly one lost message. -/
theorem fanout_four_bounded_topics_witness :
    (((create_json_rpc_polling_subscription Nat Nat Nat Nat).slot_notifier).sendAll
        [0, 1, 2, 3, 4, 5, 6, 7, 8, 9, 10]).nextSeq
      = [0, 1, 2, 3, 4, 5, 6, 7, 8, 9, 10].length
  ∧ (((create_json_rpc_polling_subscription Nat Nat Nat Nat).slot_notifier).sendAll
        [0, 1, 2, 3, 4, 5, 6, 7, 8, 9, 10]).recv { cursor := 0 }
      = RecvResult.lagged ([0, 1, 2, 3, 4, 5, 6, 7, 8, 9, 10].length - 10)
          { cursor := [0, 1, 2, 3, 4, 5, 6, 7, 8, 9, 10].length - 10 } :=
  fanout_four_bounded_topics.2.2 [0, 1, 2, 3, 4, 5, 6, 7, 8, 9, 10] (by decide)

/-- C7: the entry obtained from BlockStore's bootstrap query is written at the
lowest (least final, Processed) tier regardless of the tier passed to
`poll_latest_block`, only the configured store's latest-processed pointer
changes, and nothing is written when no store is configured. -/
theorem poll_latest_block_seeds_processed_tier :
    (∀ (t : Commitment) (hash : String) (info : BlockInformation)
        (bs : BlockStore),
        poll_latest_block (.ok (hash, info)) (some bs) t
          = .ok (some (bs.add_block hash info Commitment.processed))
      ∧ (bs.add_block hash info Commitment.processed).latest_processed
          = some (hash, info)
      ∧ (bs.add_block hash info Commitment.processed).latest_confirmed
          = bs.latest_confirmed
      ∧ (bs.add_block hash info Commitment.processed).latest_finalized
          = bs.latest_finalized)
  ∧ (∀ (t : Commitment) (hash : String) (info : BlockInformation),
        poll_latest_block (.ok (hash, info)) none t = .ok none)
  ∧ (∀ t : Commitment, tierRank Commitment.processed ≤ tierRank t) := by
  refine ⟨fun t hash info bs => ⟨rfl, rfl, rfl, rfl⟩,
    fun t hash info => rfl, fun t => ?_⟩
  cases t <;> simp [tierRank]

/-- C8: for a valid block, the leader identifier is the recipient of the
fee-type reward entry: exactly one fee-type entry for address P gives leader
P; zero fee-type entries, or no reward list at all, give no leader — and
neither case is an error. -/
theorem process_leader_from_fee_reward (store : Option BlockStore)
    (slot : Nat) (c : Commitment) (now : Nat) (block : Block) (bh : Nat)
    (txs : List EncodedTransactionWithStatusMeta)
    (hbh : block.block_height = some bh)
    (htx : block.transactions = some txs)
    (hs : sigsOk txs = true) :
    ∃ res store2, process (.ok block) store slot c now = .ok (res, store2) ∧
      (∀ rs r, block.rewards = some rs →
          rs.filter isFeeReward = [r] → res.leader_id = some r.pubkey)
      ∧ (∀ rs, block.rewards = some rs →
          rs.filter isFeeReward = [] → res.leader_id = none)
      ∧ (block.rewards = none → res.leader_id = none) := by
  refine ⟨_, _, process_valid_eq store slot c now block bh txs hbh htx hs,
    ?_, ?_, ?_⟩
  · intro rs r hrs hf
    simp [leaderIdOf, hrs, find_eq_filter_head isFeeReward rs, hf]
  · intro rs hrs hf
    simp [leaderIdOf, hrs, find_eq_filter_head isFeeReward rs, hf]
  · intro hrs
    simp [leaderIdOf, hrs]

/-- C8 witness: a block whose reward list has exactly one fee-type entry, for
address P, yields leader identifier P. -/
theorem process_leader_from_fee_reward_witness :
    ∃ res store2,
      process (.ok feeRewardBlock) none 8 Commitment.finalized 0
        = .ok (res, store2) ∧ res.leader_id = some "P" := by
  obtain ⟨res, store2, hp, h1, _, _⟩ :=
    process_leader_from_fee_reward none 8 Commitment.finalized 0 feeRewardBlock
      77 [] rfl rfl rfl
  exact ⟨res, store2, hp,
    h1 (feeRewardBlock.rewards.getD []) { pubkey := "P", reward_type := some RewardType.fee }
      rfl (by decide)⟩

/-- C9: the legacy product `units * 1000` is evaluated in 32-bit unsigned
arithmetic before the division (widening only afterwards): for
additional_fee > 0 and units ≤ 4294967 the derived fee is the exact
floor(units × 1000 / additional_fee), while at units = 4294968 the wrapped
product 704 makes the fee differ from the exact value. -/
theorem legacy_product_u32_wraps :
    (∀ (u f : Nat) (cur pri : Option Int), 0 < f → u ≤ 4294967 →
        (applyLegacyOverride (some (u, f)) cur pri).2
          = some (Int.ofNat (u * 1000 / f)))
  ∧ (applyLegacyOverride (some (4294968, 1)) none none).2
        = some (Int.ofNat 704)
  ∧ (704 : Nat) ≠ 4294968 * 1000 / 1 := by
  refine ⟨fun u f cur pri hf hu => ?_, by decide, by decide⟩
  have hlt : u * 1000 < 2 ^ 32 := by omega
  simp only [applyLegacyOverride, if_pos hf]
  rw [Nat.mod_eq_of_lt hlt]

/-- C9 witness: units = 100, additional_fee = 3 give the exact
floor(100000 / 3). -/
theorem legacy_product_u32_wraps_witness :
    (applyLegacyOverride (some (100, 3)) none none).2
      = some (Int.ofNat (100 * 1000 / 3)) :=
  legacy_product_u32_wraps.1 100 3 none none (by decide) (by decide)

/-- C10: `process` reads the first element of each decoded transaction's
signature list with an unchecked index: whenever every decoded transaction
carries at least one signature the access never fails and `process` returns
Ok, while a decoded transaction with an empty signature list reaches the
embedding's error branch. -/
theorem first_signature_unchecked_index :
    (∀ (store : Option BlockStore) (slot : Nat) (c : Commitment) (now : Nat)
        (block : Block) (bh : Nat)
        (txs : List EncodedTransactionWithStatusMeta),
        block.block_height = some bh → block.transactions = some txs →
        sigsOk txs = true →
        ∃ res store2, process (.ok block) store slot c now = .ok (res, store2))
  ∧ process (.ok emptySigBlock) none 0 Commitment.processed 0
      = .error ProcessError.signatureIndexOutOfBounds := by
  constructor
  · intro store slot c now block bh txs hbh htx hs
    exact ⟨_, _, process_valid_eq store slot c now block bh txs hbh htx hs⟩
  · rfl

/-- C10 witness: a block whose decoded transactions all carry a signature is
processed without reaching the error branch. -/
theorem first_signature_unchecked_index_witness :
    ∃ res store2,
      process (.ok plainBlock) none 3 Commitment.processed 0 = .ok (res, store2) :=
  first_signature_unchecked_index.1 none 3 Commitment.processed 0 plainBlock 2
    (plainBlock.transactions.getD []) rfl rfl rfl

end LiteTxnSender
